import Mathlib

/-!
Shallow embedding of the Kafka administrative client (Go package `kafka`,
files `src/unnamed/part_000` and `src/unnamed/part_001`) and proofs of the
spec's claims about it.

Modelling conventions:
- Go `error` values become the inductive `GoError`; a `nil` error is `none`
  (when the Go function returns only an error) or `Except.ok` (when it
  returns a value and an error, and callers only use the value when the
  error is nil).
- The external sarama protocol library is modelled at its interface: its
  enumeration constants keep their numeric values (Go `iota`), request and
  response records carry exactly the fields the client code reads, and the
  transport methods become function-valued fields of `Broker` /
  `SaramaClient` (oracles), so every theorem quantifies over broker
  behaviour.
- Go maps that the code only iterates become association lists; the
  iteration order of a Go map is unspecified, and every property proved
  below is order-independent.
- Log statements are side effects the spec excludes from the behavioural
  contract and are dropped.
-/

/-- Go `error` values, with the dynamic error types the client code
distinguishes: `TopicMissingError` is its own constructor because callers
branch on it by type; every other error (transport errors, `fmt.Errorf`,
`errors.New`) is `generic` carrying the rendered message; `kerror` is a
`sarama.KError` returned as an error value directly. -/
inductive GoError where
  | generic (msg : String)
  | topicMissing (msg : String)
  | kerror (code : Int)
  deriving DecidableEq

/-- `sarama.ErrNoError` (`KError` zero value). -/
def ErrNoError : Int := 0

/-- Stand-in for the external `sarama.KError.Error()` rendering; only its
existence, never its text, matters to the client code's contracts. -/
def kErrorText (code : Int) : String :=
  "kafka server error " ++ toString code

/-! ## sarama ACL enumerations (values fixed by the library's `iota`) -/

def AclOperationUnknown : Int := 0
def AclOperationAny : Int := 1
def AclOperationAll : Int := 2
def AclOperationRead : Int := 3
def AclOperationWrite : Int := 4
def AclOperationCreate : Int := 5
def AclOperationDelete : Int := 6
def AclOperationAlter : Int := 7
def AclOperationDescribe : Int := 8
def AclOperationClusterAction : Int := 9
def AclOperationDescribeConfigs : Int := 10
def AclOperationAlterConfigs : Int := 11
def AclOperationIdempotentWrite : Int := 12

def AclResourceUnknown : Int := 0
def AclResourceAny : Int := 1
def AclResourceTopic : Int := 2
def AclResourceGroup : Int := 3
def AclResourceCluster : Int := 4
def AclResourceTransactionalID : Int := 5

def AclPatternUnknown : Int := 0
def AclPatternAny : Int := 1
def AclPatternMatch : Int := 2
def AclPatternLiteral : Int := 3
def AclPatternPrefixed : Int := 4

def AclPermissionUnknown : Int := 0
def AclPermissionAny : Int := 1
def AclPermissionDeny : Int := 2
def AclPermissionAllow : Int := 3

/-- `const unknownConversion = -1` (part_001 line 83). -/
def unknownConversion : Int := -1

/-! ## ACLTranslator: the four string-to-enumeration switches (part_001) -/

/-- `stringToACLPrefix` (part_001 lines 33-45). -/
def stringToACLPrefix (s : String) : Int :=
  match s with
  | "any" => AclPatternAny
  | "match" => AclPatternMatch
  | "literal" => AclPatternLiteral
  | "prefixed" => AclPatternPrefixed
  | _ => unknownConversion

/-- `stringToACLResouce` (part_001 lines 142-158; the source misspells
"Resource"). -/
def stringToACLResouce (s : String) : Int :=
  match s with
  | "Unknown" => AclResourceUnknown
  | "Any" => AclResourceAny
  | "Topic" => AclResourceTopic
  | "Group" => AclResourceGroup
  | "Cluster" => AclResourceCluster
  | "TransactionalID" => AclResourceTransactionalID
  | _ => unknownConversion

/-- `stringToOperation` (part_001 lines 160-190). -/
def stringToOperation (s : String) : Int :=
  match s with
  | "Unknown" => AclOperationUnknown
  | "Any" => AclOperationAny
  | "All" => AclOperationAll
  | "Read" => AclOperationRead
  | "Write" => AclOperationWrite
  | "Create" => AclOperationCreate
  | "Delete" => AclOperationDelete
  | "Alter" => AclOperationAlter
  | "Describe" => AclOperationDescribe
  | "ClusterAction" => AclOperationClusterAction
  | "DescribeConfigs" => AclOperationDescribeConfigs
  | "AlterConfigs" => AclOperationAlterConfigs
  | "IdempotentWrite" => AclOperationIdempotentWrite
  | _ => unknownConversion

/-- `stringToAclPermissionType` (part_001 lines 192-204). -/
def stringToAclPermissionType (s : String) : Int :=
  match s with
  | "Unknown" => AclPermissionUnknown
  | "Any" => AclPermissionAny
  | "Deny" => AclPermissionDeny
  | "Allow" => AclPermissionAllow
  | _ => unknownConversion

/-- The vocabulary of `stringToOperation`: the strings with a case in its
switch. -/
def operationVocab : List String :=
  ["Unknown", "Any", "All", "Read", "Write", "Create", "Delete", "Alter",
   "Describe", "ClusterAction", "DescribeConfigs", "AlterConfigs",
   "IdempotentWrite"]

/-- The vocabulary of `stringToAclPermissionType`. -/
def permissionVocab : List String := ["Unknown", "Any", "Deny", "Allow"]

/-- The vocabulary of `stringToACLResouce`. -/
def resourceVocab : List String :=
  ["Unknown", "Any", "Topic", "Group", "Cluster", "TransactionalID"]

/-- The vocabulary of `stringToACLPrefix`. -/
def patternVocab : List String := ["any", "match", "literal", "prefixed"]

/-- Modelled from the spec: the canonical string of each listed operation
value (the source has no enumeration-to-string function; this is the
inverse of the switch on its vocabulary, for the round-trip property). -/
def operationCanonicalString (v : Int) : String :=
  if v = AclOperationUnknown then "Unknown"
  else if v = AclOperationAny then "Any"
  else if v = AclOperationAll then "All"
  else if v = AclOperationRead then "Read"
  else if v = AclOperationWrite then "Write"
  else if v = AclOperationCreate then "Create"
  else if v = AclOperationDelete then "Delete"
  else if v = AclOperationAlter then "Alter"
  else if v = AclOperationDescribe then "Describe"
  else if v = AclOperationClusterAction then "ClusterAction"
  else if v = AclOperationDescribeConfigs then "DescribeConfigs"
  else if v = AclOperationAlterConfigs then "AlterConfigs"
  else if v = AclOperationIdempotentWrite then "IdempotentWrite"
  else ""

/-- Modelled from the spec: canonical string of each listed permission
value. -/
def permissionCanonicalString (v : Int) : String :=
  if v = AclPermissionUnknown then "Unknown"
  else if v = AclPermissionAny then "Any"
  else if v = AclPermissionDeny then "Deny"
  else if v = AclPermissionAllow then "Allow"
  else ""

/-- Modelled from the spec: canonical string of each listed resource-type
value. -/
def resourceCanonicalString (v : Int) : String :=
  if v = AclResourceUnknown then "Unknown"
  else if v = AclResourceAny then "Any"
  else if v = AclResourceTopic then "Topic"
  else if v = AclResourceGroup then "Group"
  else if v = AclResourceCluster then "Cluster"
  else if v = AclResourceTransactionalID then "TransactionalID"
  else ""

/-- Modelled from the spec: canonical string of each listed pattern-type
value. -/
def patternCanonicalString (v : Int) : String :=
  if v = AclPatternAny then "any"
  else if v = AclPatternMatch then "match"
  else if v = AclPatternLiteral then "literal"
  else if v = AclPatternPrefixed then "prefixed"
  else ""

/-! ## ConfigDiffer (part_000) -/

/-- `sarama.ConfigSource` constants (library `iota`). -/
def SourceUnknown : Int := 0
def SourceTopic : Int := 1
def SourceDynamicBroker : Int := 2
def SourceDynamicDefaultBroker : Int := 3
def SourceStaticBroker : Int := 4
def SourceDefault : Int := 5

/-- `sarama.ConfigEntry`, restricted to the fields the client code reads
(`Synonyms` is only logged). -/
structure ConfigEntry where
  Name : String
  Value : String
  Default : Bool
  Source : Int
  deriving DecidableEq

/-- `isDefault` (part_000 lines 407-412). -/
def isDefault (tc : ConfigEntry) (version : Int) : Bool :=
  if version = 0 then
    tc.Default
  else
    tc.Source == SourceDefault || tc.Source == SourceStaticBroker

/-! ## Stringly-typed ACLs and their translation (part_001) -/

/-- `ACL` (part_001 lines 11-16): caller-facing, string-encoded. -/
structure ACL where
  Principal : String
  Host : String
  Operation : String
  PermissionType : String
  deriving DecidableEq

/-- `Resource` (part_001 lines 18-22); the Go field `Type` must be quoted
in Lean. -/
structure Resource where
  «Type» : String
  Name : String
  PatternTypeFilter : String
  deriving DecidableEq

/-- `stringlyTypedACL` (part_001 lines 24-27). -/
structure stringlyTypedACL where
  ACL : ACL
  Resource : Resource
  deriving DecidableEq

/-- `sarama.Acl`: the protocol-typed ACL record. -/
structure SaramaAcl where
  Principal : String
  Host : String
  Operation : Int
  PermissionType : Int
  deriving DecidableEq

/-- `sarama.Resource`: the protocol-typed resource record (the library
misspells `ResoucePatternType`). -/
structure SaramaResource where
  ResourceType : Int
  ResourceName : String
  ResoucePatternType : Int
  deriving DecidableEq

/-- `sarama.AclCreation` (renamed here to avoid clashing with the
client method of the same name). -/
structure SaramaAclCreation where
  Acl : SaramaAcl
  Resource : SaramaResource
  deriving DecidableEq

/-- `sarama.AclFilter` (renamed as above): pointer-valued string fields
become `Option`; enumeration fields left unset by the code keep Go's zero
value `0`. -/
structure SaramaAclFilter where
  Principal : Option String := none
  Host : Option String := none
  ResourceName : Option String := none
  ResourceType : Int := 0
  ResourcePatternTypeFilter : Int := 0
  Operation : Int := 0
  PermissionType : Int := 0
  deriving DecidableEq

/-- `stringlyTypedACL.AclCreation` (part_001 lines 47-81): validates
operation, permission type, resource type, then pattern type, failing on
the first unmapped string; on success builds the protocol record. -/
def stringlyTypedACL.AclCreation (s : stringlyTypedACL) : Except GoError SaramaAclCreation :=
  let op := stringToOperation s.ACL.Operation
  if op = unknownConversion then
    .error (.generic ("Unknown operation: '" ++ s.ACL.Operation ++ "'"))
  else
    let permissionType := stringToAclPermissionType s.ACL.PermissionType
    if permissionType = unknownConversion then
      .error (.generic ("Unknown permission type: '" ++ s.ACL.PermissionType ++ "'"))
    else
      let rType := stringToACLResouce s.Resource.«Type»
      if rType = unknownConversion then
        .error (.generic ("Unknown resource type: '" ++ s.Resource.«Type» ++ "'"))
      else
        let patternType := stringToACLPrefix s.Resource.PatternTypeFilter
        if patternType = unknownConversion then
          .error (.generic ("Unknown pattern type filter: '" ++ s.Resource.PatternTypeFilter ++ "'"))
        else
          .ok { Acl := { Principal := s.ACL.Principal
                         Host := s.ACL.Host
                         Operation := op
                         PermissionType := permissionType }
                Resource := { ResourceType := rType
                              ResourceName := s.Resource.Name
                              ResoucePatternType := patternType } }

/-- `stringlyTypedACL.AclFilter` (part_001 lines 85-111): validates only
operation, permission type and resource type (the pattern-type filter
string is never consulted); principal, host and resource name are copied
unconditionally. -/
def stringlyTypedACL.AclFilter (s : stringlyTypedACL) : Except GoError SaramaAclFilter :=
  let f : SaramaAclFilter :=
    { Principal := some s.ACL.Principal
      Host := some s.ACL.Host
      ResourceName := some s.Resource.Name }
  let op := stringToOperation s.ACL.Operation
  if op = unknownConversion then
    .error (.generic ("Unknown operation: " ++ s.ACL.Operation))
  else
    let f := { f with Operation := op }
    let pType := stringToAclPermissionType s.ACL.PermissionType
    if pType = unknownConversion then
      .error (.generic ("Unknown permission type: " ++ s.ACL.PermissionType))
    else
      let f := { f with PermissionType := pType }
      let rType := stringToACLResouce s.Resource.«Type»
      if rType = unknownConversion then
        .error (.generic ("Unknown resource type: " ++ s.Resource.«Type»))
      else
        .ok { f with ResourceType := rType }

/-! ## sarama transport interface: requests, responses, Broker, Client -/

/-- `time.Duration(n) * time.Second`: nanoseconds per second. -/
def timeSecond : Int := 1000000000

/-- `sarama.DeleteTopicsRequest` (fields the code sets). -/
structure DeleteTopicsRequest where
  Topics : List String
  Timeout : Int
  deriving DecidableEq

/-- `sarama.DeleteTopicsResponse`: `TopicErrorCodes map[string]KError` as an
association list. -/
structure DeleteTopicsResponse where
  TopicErrorCodes : List (String × Int)
  deriving DecidableEq

/-- `sarama.TopicDetail` (fields the code sets). -/
structure TopicDetail where
  NumPartitions : Int
  ReplicationFactor : Int
  ConfigEntries : List (String × String)
  deriving DecidableEq

/-- `sarama.CreateTopicsRequest`. -/
structure CreateTopicsRequest where
  TopicDetails : List (String × TopicDetail)
  Timeout : Int
  deriving DecidableEq

/-- `sarama.CreateTopicsResponse`: `TopicErrors map[string]*TopicError`,
keeping per topic the `Err` field the code reads. -/
structure CreateTopicsResponse where
  TopicErrors : List (String × Int)
  deriving DecidableEq

/-- `sarama.AlterConfigsResource` (fields the request construction needs). -/
structure AlterConfigsResource where
  «Type» : Int
  Name : String
  ConfigEntries : List (String × String)
  deriving DecidableEq

/-- `sarama.AlterConfigsRequest`. -/
structure AlterConfigsRequest where
  Resources : List AlterConfigsResource
  ValidateOnly : Bool
  deriving DecidableEq

/-- One element of `sarama.AlterConfigsResponse.Resources` (fields read:
`ErrorCode`, `ErrorMsg`). -/
structure AlterConfigsResourceResponse where
  ErrorCode : Int
  ErrorMsg : String
  deriving DecidableEq

/-- `sarama.AlterConfigsResponse`. -/
structure AlterConfigsResponse where
  Resources : List AlterConfigsResourceResponse
  deriving DecidableEq

/-- `sarama.TopicPartition` (field the code sets). -/
structure TopicPartition where
  Count : Int
  deriving DecidableEq

/-- `sarama.CreatePartitionsRequest`. -/
structure CreatePartitionsRequest where
  TopicPartitions : List (String × TopicPartition)
  Timeout : Int
  ValidateOnly : Bool
  deriving DecidableEq

/-- `sarama.CreatePartitionsResponse`: `TopicPartitionErrors
map[string]*TopicPartitionError`, keeping the `Err` field the code reads. -/
structure CreatePartitionsResponse where
  TopicPartitionErrors : List (String × Int)
  deriving DecidableEq

/-- `sarama.TopicResource` (`ConfigResourceType` for topics; the library
value is 2). -/
def TopicResource : Int := 2

/-- `sarama.ConfigResource` (fields the code sets). -/
structure ConfigResource where
  «Type» : Int
  Name : String
  deriving DecidableEq

/-- `sarama.DescribeConfigsRequest`. -/
structure DescribeConfigsRequest where
  Version : Int
  Resources : List ConfigResource
  deriving DecidableEq

/-- One element of `sarama.DescribeConfigsResponse.Resources` (field read:
`Configs`). -/
structure ResourceResponse where
  Configs : List ConfigEntry
  deriving DecidableEq

/-- `sarama.DescribeConfigsResponse`. -/
structure DescribeConfigsResponse where
  Version : Int
  Resources : List ResourceResponse
  deriving DecidableEq

/-- Stand-in for the external `sarama.ResourceAcls` record: `ListACLs`
passes these through without inspecting them, so an opaque tag suffices. -/
structure ResourceAcls where
  tag : Nat
  deriving DecidableEq

/-- `sarama.DescribeAclsRequest`. -/
structure DescribeAclsRequest where
  Version : Int
  AclFilter : SaramaAclFilter
  deriving DecidableEq

/-- `sarama.DescribeAclsResponse` (fields read: `Err`, `ResourceAcls`). -/
structure DescribeAclsResponse where
  Err : Int
  ResourceAcls : List ResourceAcls
  deriving DecidableEq

/-- A `*sarama.Broker`: the connection handle, modelled as the broker's
address plus one response function per protocol method the client code
calls. The functions are oracles: theorems quantify over them, so they
cover every possible broker behaviour, including transport errors. -/
structure Broker where
  addr : String
  DeleteTopics : DeleteTopicsRequest → Except GoError DeleteTopicsResponse
  CreateTopics : CreateTopicsRequest → Except GoError CreateTopicsResponse
  AlterConfigs : AlterConfigsRequest → Except GoError AlterConfigsResponse
  CreatePartitions : CreatePartitionsRequest → Except GoError CreatePartitionsResponse
  DescribeConfigs : DescribeConfigsRequest → Except GoError DescribeConfigsResponse
  DescribeAcls : DescribeAclsRequest → Except GoError DescribeAclsResponse

/-- The `sarama.Client` interface, restricted to the methods the code
calls, as response oracles. -/
structure SaramaClient where
  Controller : Except GoError Broker
  RefreshMetadata : Option GoError
  Topics : Except GoError (List String)
  Partitions : String → Except GoError (List Int)

/-- `Config` (part_000 lines 48-60). `BootstrapServers` is a `*[]string`
in Go; the client constructor rejects a nil list, so it is modelled as the
dereferenced list. Certificates and TLS material are opaque handles of the
crypto libraries. -/
structure Certificate where
  certId : Nat
  deriving DecidableEq

/-- A `tls.Certificate` (client certificate with key), opaque. -/
structure TLSCertificate where
  certId : Nat
  deriving DecidableEq

structure Config where
  BootstrapServers : List String := []
  Timeout : Int := 0
  CACert : Option Certificate := none
  CACertFile : String := ""
  ClientCert : Option TLSCertificate := none
  ClientCertFile : String := ""
  ClientCertKey : String := ""
  TLSEnabled : Bool := false
  SkipTLSVerify : Bool := false
  SASLUsername : String := ""
  SASLPassword : String := ""
  deriving DecidableEq

/-- `Config.SASLEnabled` (part_000 lines 66-68). -/
def Config.SASLEnabled (c : Config) : Bool :=
  c.SASLUsername != "" || c.SASLPassword != ""

/-- `Client` (part_000 lines 42-46), without the derived `kafkaConfig`
field (it is only threaded to `broker.Open`, which is part of the
`openBroker` oracle below). -/
structure Client where
  client : SaramaClient
  config : Config

/-- `Topic`: the domain record (`Name`, `Partitions int32`,
`ReplicationFactor int16`, `Config map[string]*string`); the config map
becomes an association list of non-nil values, as the code builds it. -/
structure Topic where
  Name : String := ""
  Partitions : Int := 0
  ReplicationFactor : Int := 0
  Config : List (String × String) := []
  deriving DecidableEq

/-! ## TopicAdmin operations (part_000) -/

/-- Modelled from the spec: `configToResources` is called by `UpdateTopic`
(part_000 line 135) but is defined outside the provided sources; per spec
4.4 the alter-config request is "scoped to the topic resource", so it
yields the single topic resource carrying the topic's config entries. No
claim below depends on its exact output. -/
def configToResources (topic : Topic) : List AlterConfigsResource :=
  [{ «Type» := TopicResource, Name := topic.Name, ConfigEntries := topic.Config }]

/-- `Client.DeleteTopic` (part_000 lines 97-125): controller, delete
request with the configured timeout, then the first non-`ErrNoError`
per-topic code becomes a formatted failure; nil error only when every
code is clear. -/
def Client.DeleteTopic (c : Client) (t : String) : Option GoError :=
  match c.client.Controller with
  | .error e => some e
  | .ok broker =>
    let timeout := c.config.Timeout * timeSecond
    let req : DeleteTopicsRequest := { Topics := [t], Timeout := timeout }
    match broker.DeleteTopics req with
    | .ok res =>
      match res.TopicErrorCodes.find? (fun kv => kv.2 != ErrNoError) with
      | some kv => some (.generic (kv.1 ++ " : " ++ kErrorText kv.2))
      | none => none
    | .error e => some e

/-- `Client.UpdateTopic` (part_000 lines 127-154). -/
def Client.UpdateTopic (c : Client) (topic : Topic) : Option GoError :=
  match c.client.Controller with
  | .error e => some e
  | .ok broker =>
    let r : AlterConfigsRequest :=
      { Resources := configToResources topic, ValidateOnly := false }
    match broker.AlterConfigs r with
    | .error e => some e
    | .ok res =>
      match res.Resources.find? (fun e => e.ErrorCode != ErrNoError) with
      | some e => some (.generic e.ErrorMsg)
      | none => none

/-- `Client.CreateTopic` (part_000 lines 156-188). -/
def Client.CreateTopic (c : Client) (t : Topic) : Option GoError :=
  match c.client.Controller with
  | .error e => some e
  | .ok broker =>
    let timeout := c.config.Timeout * timeSecond
    let req : CreateTopicsRequest :=
      { TopicDetails := [(t.Name, { NumPartitions := t.Partitions
                                    ReplicationFactor := t.ReplicationFactor
                                    ConfigEntries := t.Config })]
        Timeout := timeout }
    match broker.CreateTopics req with
    | .ok res =>
      match res.TopicErrors.find? (fun kv => kv.2 != ErrNoError) with
      | some kv => some (.generic (kErrorText kv.2))
      | none => none
    | .error e => some e

/-- `Client.AddPartitions` (part_000 lines 190-222). -/
def Client.AddPartitions (c : Client) (t : Topic) : Option GoError :=
  match c.client.Controller with
  | .error e => some e
  | .ok broker =>
    let timeout := c.config.Timeout * timeSecond
    let tp : List (String × TopicPartition) := [(t.Name, { Count := t.Partitions })]
    let req : CreatePartitionsRequest :=
      { TopicPartitions := tp, Timeout := timeout, ValidateOnly := false }
    match broker.CreatePartitions req with
    | .ok res =>
      match res.TopicPartitionErrors.find? (fun kv => kv.2 != ErrNoError) with
      | some kv => some (.generic (kErrorText kv.2))
      | none => none
    | .error e => some e

/-- Go map assignment `conf[k] = v` on an association list: replaces any
existing binding of `k`. -/
def mapSet (m : List (String × String)) (k v : String) : List (String × String) :=
  (m.filter (fun kv => kv.1 != k)) ++ [(k, v)]

/-- `Client.topicConfig` (part_000 lines 368-405): describe-configs on the
topic resource, keeping only the entries `isDefault` rejects for the
response's version. -/
def Client.topicConfig (c : Client) (topic : String) : Except GoError (List (String × String)) :=
  let request : DescribeConfigsRequest :=
    { Version := 1, Resources := [{ «Type» := TopicResource, Name := topic }] }
  match c.client.Controller with
  | .error e => .error e
  | .ok broker =>
    match broker.DescribeConfigs request with
    | .error e => .error e
    | .ok cr =>
      match cr.Resources with
      | [] => .ok []
      | r0 :: _ =>
        .ok (r0.Configs.foldl
          (fun conf tConf =>
            if isDefault tConf cr.Version then conf
            else mapSet conf tConf.Name tConf.Value) [])

/-- The topic-name scan of `Client.ReadTopic` (part_000 lines 239-266):
walks the listed topic names; on an exact name match queries partitions —
a partition-query error makes the loop fall through to the next name —
then replica count (an error there merely leaves the replication factor
unset) and the topic config (an error there is returned as-is); a scan
that finds no usable match falls out to the `TopicMissingError`. -/
def readTopicLoop (c : Client) (replicaCount : String → List Int → Except GoError Int)
    (name : String) (topic : Topic) : List String → Topic × Option GoError
  | [] => (topic, some (.topicMissing (name ++ " could not be found")))
  | t :: rest =>
    if name = t then
      match c.client.Partitions t with
      | .ok p =>
        let topic := { topic with Partitions := (p.length : Int) }
        let topic :=
          match replicaCount name p with
          | .ok r => { topic with ReplicationFactor := r }
          | .error _ => topic
        match c.topicConfig t with
        | .error e => (topic, some e)
        | .ok configToSave => ({ topic with Config := configToSave }, none)
      | .error _ => readTopicLoop c replicaCount name topic rest
    else readTopicLoop c replicaCount name topic rest

/-- `Client.ReadTopic` (part_000 lines 224-269). `ReplicaCount` is repo
code outside the provided sources, so it is a parameter here; the
`RefreshMetadata` error is overwritten by the `Topics` call in the source
(lines 231-232) and so never observed. -/
def Client.ReadTopic (c : Client) (replicaCount : String → List Int → Except GoError Int)
    (name : String) : Topic × Option GoError :=
  let topic : Topic := { Name := name }
  match c.client.Topics with
  | .error e => (topic, some e)
  | .ok topics => readTopicLoop c replicaCount name topic topics

/-! ## BrokerLocator (part_000) -/

/-- The address scan of `Client.availableBroker` (part_000 lines 420-427):
first address whose `NewBroker`/`Open` pair (the `openBroker` oracle)
succeeds. -/
def availableBrokerLoop (openBroker : String → Except GoError Broker) :
    List String → Option Broker
  | [] => none
  | b :: rest =>
    match openBroker b with
    | .ok broker => some broker
    | .error _ => availableBrokerLoop openBroker rest

/-- The addresses `Client.availableBroker` actually attempts to open:
every address up to and including the first that succeeds. -/
def availableBrokerAttempts (openBroker : String → Except GoError Broker) :
    List String → List String
  | [] => []
  | b :: rest =>
    match openBroker b with
    | .ok _ => [b]
    | .error _ => b :: availableBrokerAttempts openBroker rest

/-- `Client.availableBroker` (part_000 lines 414-430). -/
def Client.availableBroker (c : Client) (openBroker : String → Except GoError Broker) :
    Except GoError Broker :=
  match availableBrokerLoop openBroker c.config.BootstrapServers with
  | some broker => .ok broker
  | none =>
    .error (.generic ("No Available Brokers @ [" ++
      String.intercalate " " c.config.BootstrapServers ++ "]"))

/-! ## ACLAdmin: ListACLs (part_000) -/

/-- The `allResources` request list of `Client.ListACLs` (part_000 lines
309-346): Topic, Group, Cluster, TransactionalID, each version 1 with
any-filters for pattern type, permission type and operation. -/
def listAclsRequests : List DescribeAclsRequest :=
  [ { Version := 1
      AclFilter := { ResourceType := AclResourceTopic
                     ResourcePatternTypeFilter := AclPatternAny
                     PermissionType := AclPermissionAny
                     Operation := AclOperationAny } },
    { Version := 1
      AclFilter := { ResourceType := AclResourceGroup
                     ResourcePatternTypeFilter := AclPatternAny
                     PermissionType := AclPermissionAny
                     Operation := AclOperationAny } },
    { Version := 1
      AclFilter := { ResourceType := AclResourceCluster
                     ResourcePatternTypeFilter := AclPatternAny
                     PermissionType := AclPermissionAny
                     Operation := AclOperationAny } },
    { Version := 1
      AclFilter := { ResourceType := AclResourceTransactionalID
                     ResourcePatternTypeFilter := AclPatternAny
                     PermissionType := AclPermissionAny
                     Operation := AclOperationAny } } ]

/-- The query loop of `Client.ListACLs` (part_000 lines 349-364): aborts
on a transport error or a non-`ErrNoError` response code, else appends the
returned entries. -/
def listAclsLoop (broker : Broker) :
    List DescribeAclsRequest → List ResourceAcls → Except GoError (List ResourceAcls)
  | [], res => .ok res
  | r :: rest, res =>
    match broker.DescribeAcls r with
    | .error e => .error e
    | .ok aclsR =>
      if aclsR.Err != ErrNoError then .error (.generic (kErrorText aclsR.Err))
      else listAclsLoop broker rest (res ++ aclsR.ResourceAcls)

/-- The describe queries the loop actually issues: every request up to and
including the first failing one. -/
def listAclsIssued (broker : Broker) : List DescribeAclsRequest → List DescribeAclsRequest
  | [] => []
  | r :: rest =>
    match broker.DescribeAcls r with
    | .error _ => [r]
    | .ok aclsR =>
      if aclsR.Err != ErrNoError then [r]
      else r :: listAclsIssued broker rest

/-- `Client.ListACLs` (part_000 lines 300-366). -/
def Client.ListACLs (c : Client) (openBroker : String → Except GoError Broker) :
    Except GoError (List ResourceAcls) :=
  match c.availableBroker openBroker with
  | .error e => .error e
  | .ok broker =>
    match c.client.RefreshMetadata with
    | some e => .error e
    | none => listAclsLoop broker listAclsRequests []

/-! ## ConnectionConfig derivation (part_000 lines 432-508) -/

/-- The system facilities the TLS derivation uses, as oracles:
`ioutil.ReadFile`, `tls.LoadX509KeyPair`, and the certificates a PEM blob
decodes to (`x509.CertPool.AppendCertsFromPEM`). -/
structure SysOracle where
  readFile : String → Except GoError (List Nat)
  loadX509KeyPair : String → String → Except GoError TLSCertificate
  pemCerts : List Nat → List Certificate

/-- `Config.clientCert` (part_000 lines 481-494): the in-memory client
certificate wins; otherwise a file/key pair is loaded when both paths are
non-empty; otherwise no certificate. -/
def Config.clientCert (c : Config) (o : SysOracle) : Except GoError (Option TLSCertificate) :=
  match c.ClientCert with
  | some cert => .ok (some cert)
  | none =>
    if c.ClientCertFile != "" && c.ClientCertKey != "" then
      match o.loadX509KeyPair c.ClientCertFile c.ClientCertKey with
      | .error e => .error e
      | .ok cert => .ok (some cert)
    else .ok none

/-- `Config.caCertPool` (part_000 lines 496-508), faithfully including the
source's condition `c.CACertFile == ""` on the file-reading branch: the
pool starts empty, an in-memory CA certificate is added if present, and
otherwise the file is read only when the configured path is the EMPTY
string — with a non-empty path the function falls through and returns the
empty pool. -/
def Config.caCertPool (c : Config) (o : SysOracle) : Except GoError (List Certificate) :=
  match c.CACert with
  | some cert => .ok [cert]
  | none =>
    if c.CACertFile = "" then
      match o.readFile c.CACertFile with
      | .error e => .error e
      | .ok caCert => .ok (o.pemCerts caCert)
    else .ok []

/-- `tls.Config`, restricted to the fields the code sets. -/
structure TLSConfig where
  Certificates : List TLSCertificate := []
  RootCAs : Option (List Certificate) := none
  InsecureSkipVerify : Bool := false
  deriving DecidableEq

/-- `Config.newTLSConfig` (part_000 lines 457-479); on the success path the
pool pointer is never nil, so `RootCAs` is always set
(`BuildNameToCertificate` only fills a deprecated lookup map and is
dropped). -/
def Config.newTLSConfig (c : Config) (o : SysOracle) : Except GoError TLSConfig :=
  let tlsConfig : TLSConfig := {}
  match c.clientCert o with
  | .error e => .error e
  | .ok cert =>
    let tlsConfig :=
      match cert with
      | some cc => { tlsConfig with Certificates := [cc] }
      | none => tlsConfig
    match c.caCertPool o with
    | .error e => .error e
    | .ok pool => .ok { tlsConfig with RootCAs := some pool }

/-- `sarama.KafkaVersion` as its four version numbers. -/
def V1_0_0_0 : List Nat := [1, 0, 0, 0]

def V2_0_0_0 : List Nat := [2, 0, 0, 0]

/-- `sarama.Config`, restricted to the fields the client code sets
(`Net.SASL.*` and `Net.TLS.*` flattened). -/
structure KafkaConfig where
  Version : List Nat
  ClientID : String
  NetSASLEnable : Bool := false
  NetSASLUser : String := ""
  NetSASLPassword : String := ""
  NetTLSEnable : Bool := false
  NetTLSConfig : Option TLSConfig := none
  deriving DecidableEq

/-- `sarama.NewConfig()` restricted to the modelled fields (the library's
defaults; both are immediately overwritten by `newKafkaConfig`). -/
def saramaNewConfig : KafkaConfig :=
  { Version := [0, 8, 2, 0], ClientID := "sarama" }

/-- `Config.newKafkaConfig` (part_000 lines 432-455): fixes the protocol
version to `sarama.V2_0_0_0` and the client id, toggles SASL, and installs
the TLS context with the configured skip-verify flag. -/
def Config.newKafkaConfig (c : Config) (o : SysOracle) : Except GoError KafkaConfig :=
  let kafkaConfig := saramaNewConfig
  let kafkaConfig :=
    { kafkaConfig with Version := V2_0_0_0, ClientID := "terraform-provider-kafka" }
  let kafkaConfig :=
    if c.SASLEnabled then
      { kafkaConfig with NetSASLEnable := true
                         NetSASLPassword := c.SASLPassword
                         NetSASLUser := c.SASLUsername }
    else kafkaConfig
  if c.TLSEnabled then
    match c.newTLSConfig o with
    | .error e => .error e
    | .ok tlsConfig =>
      .ok { kafkaConfig with
            NetTLSEnable := true
            NetTLSConfig := some { tlsConfig with InsecureSkipVerify := c.SkipTLSVerify } }
  else .ok kafkaConfig

/-- The repository's own unit test `Test_kafkaConfigVersion` (part_000
lines 9-20): derives the kafka config from the zero `Config` and asserts
`cfg.Version == sarama.V1_0_0_0` ("Default version should be v1"); `true`
iff the test passes. -/
def kafkaConfigVersionTestPasses (o : SysOracle) : Bool :=
  match Config.newKafkaConfig {} o with
  | .error _ => false
  | .ok cfg => cfg.Version == V1_0_0_0

/-! ## Theorems for the claims -/

/-- C2: for every config entry and protocol version, `isDefault` returns,
for version 0, exactly the entry's explicit is-default flag; and for every
version ≥ 1, true iff the entry's source is "default" or "static broker
config" (every other source is treated as explicit). -/
theorem isDefault_version_semantics (tc : ConfigEntry) (version : Int) :
    (version = 0 → isDefault tc version = tc.Default) ∧
    (1 ≤ version →
      (isDefault tc version = true ↔
        (tc.Source = SourceDefault ∨ tc.Source = SourceStaticBroker))) := by
  constructor
  · intro h
    simp [isDefault, h]
  · intro h
    have hne : ¬ version = 0 := by omega
    simp [isDefault, hne]

/-- Witness for C2: a version-0 entry flagged default is default, and a
version-1 entry is judged by its source. -/
theorem isDefault_version_semantics_witness :
    isDefault { Name := "retention.ms", Value := "604800000", Default := true,
                Source := SourceTopic } 0 = true ∧
    (isDefault { Name := "retention.ms", Value := "604800000", Default := false,
                 Source := SourceStaticBroker } 1 = true ↔
      (SourceStaticBroker = SourceDefault ∨ SourceStaticBroker = SourceStaticBroker)) := by
  constructor
  · exact (isDefault_version_semantics _ 0).1 rfl
  · exact (isDefault_version_semantics _ 1).2 (by norm_num)

/-- C4: each of the four string-to-enumeration mappings sends its listed
vocabulary to the distinct library values in order, sends every string
outside the vocabulary to the sentinel `unknownConversion`, and the
round-trip enumeration → canonical string → enumeration is the identity on
every value reached from the vocabulary. -/
theorem acl_string_mappings_total_distinct_roundtrip :
    (operationVocab.map stringToOperation =
       [AclOperationUnknown, AclOperationAny, AclOperationAll, AclOperationRead,
        AclOperationWrite, AclOperationCreate, AclOperationDelete, AclOperationAlter,
        AclOperationDescribe, AclOperationClusterAction, AclOperationDescribeConfigs,
        AclOperationAlterConfigs, AclOperationIdempotentWrite] ∧
     (operationVocab.map stringToOperation).Nodup ∧
     (∀ s : String, s ∉ operationVocab → stringToOperation s = unknownConversion) ∧
     (operationVocab.map stringToOperation).all
       (fun v => stringToOperation (operationCanonicalString v) == v) = true) ∧
    (permissionVocab.map stringToAclPermissionType =
       [AclPermissionUnknown, AclPermissionAny, AclPermissionDeny, AclPermissionAllow] ∧
     (permissionVocab.map stringToAclPermissionType).Nodup ∧
     (∀ s : String, s ∉ permissionVocab → stringToAclPermissionType s = unknownConversion) ∧
     (permissionVocab.map stringToAclPermissionType).all
       (fun v => stringToAclPermissionType (permissionCanonicalString v) == v) = true) ∧
    (resourceVocab.map stringToACLResouce =
       [AclResourceUnknown, AclResourceAny, AclResourceTopic, AclResourceGroup,
        AclResourceCluster, AclResourceTransactionalID] ∧
     (resourceVocab.map stringToACLResouce).Nodup ∧
     (∀ s : String, s ∉ resourceVocab → stringToACLResouce s = unknownConversion) ∧
     (resourceVocab.map stringToACLResouce).all
       (fun v => stringToACLResouce (resourceCanonicalString v) == v) = true) ∧
    (patternVocab.map stringToACLPrefix =
       [AclPatternAny, AclPatternMatch, AclPatternLiteral, AclPatternPrefixed] ∧
     (patternVocab.map stringToACLPrefix).Nodup ∧
     (∀ s : String, s ∉ patternVocab → stringToACLPrefix s = unknownConversion) ∧
     (patternVocab.map stringToACLPrefix).all
       (fun v => stringToACLPrefix (patternCanonicalString v) == v) = true) := by
  refine ⟨⟨by decide, by decide, ?_, by decide⟩,
          ⟨by decide, by decide, ?_, by decide⟩,
          ⟨by decide, by decide, ?_, by decide⟩,
          ⟨by decide, by decide, ?_, by decide⟩⟩
  · intro s hs
    simp [operationVocab] at hs
    unfold stringToOperation
    split <;> simp_all
  · intro s hs
    simp [permissionVocab] at hs
    unfold stringToAclPermissionType
    split <;> simp_all
  · intro s hs
    simp [resourceVocab] at hs
    unfold stringToACLResouce
    split <;> simp_all
  · intro s hs
    simp [patternVocab] at hs
    unfold stringToACLPrefix
    split <;> simp_all

/-- Witness for C4: a string outside every vocabulary maps to the sentinel
in all four mappings. -/
theorem acl_string_mappings_witness :
    stringToOperation "bogus" = unknownConversion ∧
    stringToAclPermissionType "bogus" = unknownConversion ∧
    stringToACLResouce "bogus" = unknownConversion ∧
    stringToACLPrefix "bogus" = unknownConversion :=
  ⟨acl_string_mappings_total_distinct_roundtrip.1.2.2.1 "bogus" (by decide),
   acl_string_mappings_total_distinct_roundtrip.2.1.2.2.1 "bogus" (by decide),
   acl_string_mappings_total_distinct_roundtrip.2.2.1.2.2.1 "bogus" (by decide),
   acl_string_mappings_total_distinct_roundtrip.2.2.2.2.2.1 "bogus" (by decide)⟩

/-- A stringly-typed ACL whose only out-of-vocabulary string field is the
pattern-type filter. -/
def patternBadACL : stringlyTypedACL :=
  { ACL := { Principal := "User:alice", Host := "*", Operation := "Read",
             PermissionType := "Allow" }
    Resource := { «Type» := "Topic", Name := "events", PatternTypeFilter := "bogus" } }

/-- Counterexample to C5 as stated: `AclFilter` does NOT translate every
string field — the pattern-type filter string is never consulted, so on an
ACL whose pattern-type filter is outside its vocabulary `AclFilter`
succeeds (with the filter's pattern field left at the zero value) instead
of failing. -/
theorem aclFilter_ignores_pattern_type :
    patternBadACL.Resource.PatternTypeFilter ∉ patternVocab ∧
    stringToACLPrefix patternBadACL.Resource.PatternTypeFilter = unknownConversion ∧
    patternBadACL.AclFilter =
      .ok { Principal := some "User:alice", Host := some "*", ResourceName := some "events",
            ResourceType := AclResourceTopic, ResourcePatternTypeFilter := 0,
            Operation := AclOperationRead, PermissionType := AclPermissionAllow } :=
  ⟨by decide, rfl, rfl⟩

/-- C5 (amended): `AclCreation` translates the four enumerated string
fields in the order operation, permission type, resource type,
pattern-type filter; `AclFilter` translates only operation, permission
type and resource type (its pattern-type field keeps the zero value and
the pattern string is never validated). Each fails with a validation error
naming the first checked field whose string is out of vocabulary,
validating no later field, and succeeds with every checked field
translated when all checked fields are in vocabulary. -/
theorem aclCreation_aclFilter_validation (s : stringlyTypedACL) :
    (stringToOperation s.ACL.Operation ≠ unknownConversion →
     stringToAclPermissionType s.ACL.PermissionType ≠ unknownConversion →
     stringToACLResouce s.Resource.«Type» ≠ unknownConversion →
     stringToACLPrefix s.Resource.PatternTypeFilter ≠ unknownConversion →
     s.AclCreation = .ok
       { Acl := { Principal := s.ACL.Principal, Host := s.ACL.Host,
                  Operation := stringToOperation s.ACL.Operation,
                  PermissionType := stringToAclPermissionType s.ACL.PermissionType }
         Resource := { ResourceType := stringToACLResouce s.Resource.«Type»,
                       ResourceName := s.Resource.Name,
                       ResoucePatternType := stringToACLPrefix s.Resource.PatternTypeFilter } }) ∧
    (stringToOperation s.ACL.Operation = unknownConversion →
     s.AclCreation = .error (.generic ("Unknown operation: '" ++ s.ACL.Operation ++ "'"))) ∧
    (stringToOperation s.ACL.Operation ≠ unknownConversion →
     stringToAclPermissionType s.ACL.PermissionType = unknownConversion →
     s.AclCreation =
       .error (.generic ("Unknown permission type: '" ++ s.ACL.PermissionType ++ "'"))) ∧
    (stringToOperation s.ACL.Operation ≠ unknownConversion →
     stringToAclPermissionType s.ACL.PermissionType ≠ unknownConversion →
     stringToACLResouce s.Resource.«Type» = unknownConversion →
     s.AclCreation =
       .error (.generic ("Unknown resource type: '" ++ s.Resource.«Type» ++ "'"))) ∧
    (stringToOperation s.ACL.Operation ≠ unknownConversion →
     stringToAclPermissionType s.ACL.PermissionType ≠ unknownConversion →
     stringToACLResouce s.Resource.«Type» ≠ unknownConversion →
     stringToACLPrefix s.Resource.PatternTypeFilter = unknownConversion →
     s.AclCreation =
       .error (.generic ("Unknown pattern type filter: '" ++ s.Resource.PatternTypeFilter ++ "'"))) ∧
    (stringToOperation s.ACL.Operation ≠ unknownConversion →
     stringToAclPermissionType s.ACL.PermissionType ≠ unknownConversion →
     stringToACLResouce s.Resource.«Type» ≠ unknownConversion →
     s.AclFilter = .ok
       { Principal := some s.ACL.Principal, Host := some s.ACL.Host,
         ResourceName := some s.Resource.Name,
         ResourceType := stringToACLResouce s.Resource.«Type»,
         ResourcePatternTypeFilter := 0,
         Operation := stringToOperation s.ACL.Operation,
         PermissionType := stringToAclPermissionType s.ACL.PermissionType }) ∧
    (stringToOperation s.ACL.Operation = unknownConversion →
     s.AclFilter = .error (.generic ("Unknown operation: " ++ s.ACL.Operation))) ∧
    (stringToOperation s.ACL.Operation ≠ unknownConversion →
     stringToAclPermissionType s.ACL.PermissionType = unknownConversion →
     s.AclFilter = .error (.generic ("Unknown permission type: " ++ s.ACL.PermissionType))) ∧
    (stringToOperation s.ACL.Operation ≠ unknownConversion →
     stringToAclPermissionType s.ACL.PermissionType ≠ unknownConversion →
     stringToACLResouce s.Resource.«Type» = unknownConversion →
     s.AclFilter = .error (.generic ("Unknown resource type: " ++ s.Resource.«Type»))) := by
  unfold stringlyTypedACL.AclCreation stringlyTypedACL.AclFilter
  refine ⟨?_, ?_, ?_, ?_, ?_, ?_, ?_, ?_, ?_⟩ <;> intros <;> simp_all

/-- An ACL with every enumerated string field in its vocabulary. -/
def goodACL : stringlyTypedACL :=
  { ACL := { Principal := "User:bob", Host := "*", Operation := "Write",
             PermissionType := "Deny" }
    Resource := { «Type» := "Group", Name := "g1", PatternTypeFilter := "literal" } }

/-- Witness for C5 (amended): a fully in-vocabulary ACL builds its
creation record, and the ACL whose pattern-type filter alone is invalid is
rejected by `AclCreation` with the error naming that value. -/
theorem aclCreation_aclFilter_validation_witness :
    goodACL.AclCreation = .ok
      { Acl := { Principal := "User:bob", Host := "*",
                 Operation := AclOperationWrite, PermissionType := AclPermissionDeny }
        Resource := { ResourceType := AclResourceGroup, ResourceName := "g1",
                      ResoucePatternType := AclPatternLiteral } } ∧
    patternBadACL.AclCreation =
      .error (.generic ("Unknown pattern type filter: '" ++ "bogus" ++ "'")) := by
  constructor
  · exact (aclCreation_aclFilter_validation goodACL).1
      (by decide) (by decide) (by decide) (by decide)
  · exact (aclCreation_aclFilter_validation patternBadACL).2.2.2.2.1
      (by decide) (by decide) (by decide) (by decide)

/-- An oracle whose file and PEM operations succeed with a non-empty
certificate list, to show `caCertPool` ignores them. -/
def caOracle : SysOracle :=
  { readFile := fun _ => .ok [0]
    loadX509KeyPair := fun _ _ => .ok { certId := 0 }
    pemCerts := fun _ => [{ certId := 7 }] }

/-- C8 (the code, at the claim's input): with TLS enabled, no in-memory CA
certificate, and a NON-empty `CACertFile`, `caCertPool` never reads the
file — for every oracle it returns the empty pool — while with an EMPTY
path it does attempt the read: the source's condition on the file branch
is inverted with respect to the claim. -/
theorem caCertPool_inverted_file_condition :
    (∀ o : SysOracle,
      Config.caCertPool { TLSEnabled := true, CACertFile := "ca.pem" } o = .ok []) ∧
    Config.caCertPool { TLSEnabled := true, CACertFile := "" } caOracle =
      .ok [{ certId := 7 }] := by
  exact ⟨fun o => rfl, rfl⟩

/-- C9 (the code, at the test's input): `newKafkaConfig` on the zero
`Config` fixes the client id but sets protocol version `V2_0_0_0`, so the
repository's own unit test `Test_kafkaConfigVersion`, which asserts
`V1_0_0_0`, fails. -/
theorem newKafkaConfig_fixed_version_and_client_id :
    ∀ o : SysOracle,
      Config.newKafkaConfig {} o =
        .ok { Version := V2_0_0_0, ClientID := "terraform-provider-kafka" } ∧
      kafkaConfigVersionTestPasses o = false ∧
      V2_0_0_0 ≠ V1_0_0_0 :=
  fun o => ⟨rfl, rfl, by decide⟩

/-- The address scan succeeds on nothing iff every address fails to open. -/
lemma availableBrokerLoop_eq_none (openBroker : String → Except GoError Broker)
    (l : List String) :
    availableBrokerLoop openBroker l = none ↔
      ∀ a ∈ l, (openBroker a).toOption = none := by
  induction l with
  | nil => simp [availableBrokerLoop]
  | cons b rest ih =>
    cases h : openBroker b with
    | ok broker => simp [availableBrokerLoop, h, Except.toOption]
    | error e => simp [availableBrokerLoop, h, Except.toOption, ih]

/-- The address scan returns the first successful open and attempts
exactly the failing prefix plus that address. -/
lemma availableBrokerLoop_first (openBroker : String → Except GoError Broker)
    (pre : List String) (b : String) (post : List String) (broker : Broker)
    (hpre : ∀ a ∈ pre, (openBroker a).toOption = none)
    (hb : openBroker b = .ok broker) :
    availableBrokerLoop openBroker (pre ++ b :: post) = some broker ∧
    availableBrokerAttempts openBroker (pre ++ b :: post) = pre ++ [b] := by
  induction pre with
  | nil => simp [availableBrokerLoop, availableBrokerAttempts, hb]
  | cons a rest ih =>
    have ha := hpre a (by simp)
    cases h : openBroker a with
    | ok br => rw [h] at ha; simp [Except.toOption] at ha
    | error e =>
      have step := ih (fun x hx => hpre x (by simp [hx]))
      simp [availableBrokerLoop, availableBrokerAttempts, h, step]

/-- When every address fails, every address is attempted. -/
lemma availableBrokerAttempts_all_fail (openBroker : String → Except GoError Broker)
    (l : List String) (h : ∀ a ∈ l, (openBroker a).toOption = none) :
    availableBrokerAttempts openBroker l = l := by
  induction l with
  | nil => rfl
  | cons b rest ih =>
    have hb := h b (by simp)
    cases hob : openBroker b with
    | ok br => rw [hob] at hb; simp [Except.toOption] at hb
    | error e =>
      simp [availableBrokerAttempts, hob, ih (fun x hx => h x (by simp [hx]))]

/-- C7: `availableBroker` attempts the configured bootstrap addresses in
list order, returns the broker opened at the first address that succeeds
(attempting no later address), and returns the aggregate error naming all
(attempted) addresses exactly when every address fails to open. -/
theorem availableBroker_first_success (c : Client)
    (openBroker : String → Except GoError Broker) :
    (∀ pre b post broker,
       c.config.BootstrapServers = pre ++ b :: post →
       (∀ a ∈ pre, (openBroker a).toOption = none) →
       openBroker b = .ok broker →
       c.availableBroker openBroker = .ok broker ∧
       availableBrokerAttempts openBroker c.config.BootstrapServers = pre ++ [b]) ∧
    ((∀ a ∈ c.config.BootstrapServers, (openBroker a).toOption = none) →
       c.availableBroker openBroker =
         .error (.generic ("No Available Brokers @ [" ++
           String.intercalate " " c.config.BootstrapServers ++ "]")) ∧
       availableBrokerAttempts openBroker c.config.BootstrapServers =
         c.config.BootstrapServers) ∧
    (∀ e, c.availableBroker openBroker = .error e →
       ∀ a ∈ c.config.BootstrapServers, (openBroker a).toOption = none) := by
  refine ⟨?_, ?_, ?_⟩
  · intro pre b post broker hsplit hpre hb
    have first := availableBrokerLoop_first openBroker pre b post broker hpre hb
    unfold Client.availableBroker
    rw [hsplit, first.1]
    exact ⟨rfl, first.2⟩
  · intro hall
    have hnone := (availableBrokerLoop_eq_none openBroker _).mpr hall
    unfold Client.availableBroker
    rw [hnone]
    exact ⟨rfl, availableBrokerAttempts_all_fail openBroker _ hall⟩
  · intro e he
    unfold Client.availableBroker at he
    cases hloop : availableBrokerLoop openBroker c.config.BootstrapServers with
    | some broker => rw [hloop] at he; exact absurd he (by simp)
    | none => exact (availableBrokerLoop_eq_none openBroker _).mp hloop

/-- An inert broker handle: every transport method fails. -/
def dummyBroker (a : String) : Broker :=
  { addr := a
    DeleteTopics := fun _ => .error (.generic "EOF")
    CreateTopics := fun _ => .error (.generic "EOF")
    AlterConfigs := fun _ => .error (.generic "EOF")
    CreatePartitions := fun _ => .error (.generic "EOF")
    DescribeConfigs := fun _ => .error (.generic "EOF")
    DescribeAcls := fun _ => .error (.generic "EOF") }

/-- An inert cluster client for concrete instantiations. -/
def dummySaramaClient : SaramaClient :=
  { Controller := .error (.generic "EOF")
    RefreshMetadata := none
    Topics := .ok []
    Partitions := fun _ => .ok [] }

/-- A client configured with the spec's two example bootstrap addresses. -/
def twoAddrClient : Client :=
  { client := dummySaramaClient
    config := { BootstrapServers := ["bad:1", "good:2"] } }

/-- An opener that only accepts connections on the second address. -/
def goodBadOpen : String → Except GoError Broker :=
  fun a => if a = "good:2" then .ok (dummyBroker a) else .error (.generic "connection refused")

/-- Witness for C7: with `["bad:1", "good:2"]` and only the second address
accepting, the broker for "good:2" is returned after attempting both in
order; with every address failing, the aggregate error names both. -/
theorem availableBroker_first_success_witness :
    (twoAddrClient.availableBroker goodBadOpen = .ok (dummyBroker "good:2") ∧
     availableBrokerAttempts goodBadOpen ["bad:1", "good:2"] = ["bad:1"] ++ ["good:2"]) ∧
    twoAddrClient.availableBroker (fun _ => .error (.generic "connection refused")) =
      .error (.generic ("No Available Brokers @ [" ++
        String.intercalate " " ["bad:1", "good:2"] ++ "]")) := by
  constructor
  · exact (availableBroker_first_success twoAddrClient goodBadOpen).1
      ["bad:1"] "good:2" [] (dummyBroker "good:2") rfl
      (by intro a ha; simp only [List.mem_singleton] at ha; subst ha; rfl) rfl
  · exact ((availableBroker_first_success twoAddrClient
      (fun _ => .error (.generic "connection refused"))).2.1
      (by intro a ha; rfl)).1

/-- A topic-name scan with no usable match (every occurrence of the name
has a failing partition query, or the name never occurs) falls out to the
`TopicMissingError`. -/
lemma readTopicLoop_no_match (c : Client)
    (rc : String → List Int → Except GoError Int) (name : String) (topic : Topic)
    (l : List String)
    (h : ∀ t ∈ l, name = t → (c.client.Partitions t).toOption = none) :
    readTopicLoop c rc name topic l =
      (topic, some (.topicMissing (name ++ " could not be found"))) := by
  induction l with
  | nil => rfl
  | cons t rest ih =>
    have step := ih (fun x hx hnx => h x (by simp [hx]) hnx)
    by_cases hn : name = t
    · have hfail := h t (by simp) hn
      cases hp : c.client.Partitions t with
      | ok p => rw [hp] at hfail; simp [Except.toOption] at hfail
      | error e =>
        simp only [readTopicLoop]
        rw [if_pos hn, hp]
        exact step
    · simp [readTopicLoop, hn, step]

/-- C3: when the requested name is absent from the cluster's topic listing,
`ReadTopic` fails with a `TopicMissingError` (a `GoError` constructor of
its own, distinguishable by type from transport and protocol errors) whose
message carries that exact name. -/
theorem readTopic_absent_topicMissing (c : Client)
    (replicaCount : String → List Int → Except GoError Int) (name : String)
    (topics : List String)
    (htopics : c.client.Topics = .ok topics) (habsent : name ∉ topics) :
    Client.ReadTopic c replicaCount name =
      ({ Name := name }, some (.topicMissing (name ++ " could not be found"))) := by
  unfold Client.ReadTopic
  rw [htopics]
  exact readTopicLoop_no_match c replicaCount name _ topics
    (fun t ht hnt => by subst hnt; exact absurd ht habsent)

/-- A client listing two topics, neither named "events". -/
def topicsClient : Client :=
  { client := { dummySaramaClient with Topics := .ok ["logs", "metrics"] }
    config := {} }

/-- Witness for C3: reading "events" from a cluster listing only "logs"
and "metrics" yields the `TopicMissingError` naming "events". -/
theorem readTopic_absent_topicMissing_witness :
    Client.ReadTopic topicsClient (fun _ _ => .ok 1) "events" =
      ({ Name := "events" }, some (.topicMissing ("events" ++ " could not be found"))) :=
  readTopic_absent_topicMissing topicsClient _ "events" ["logs", "metrics"] rfl (by decide)

/-- C10 (implicit): when the name IS in the topic listing but the
partition query for it fails, `ReadTopic` does not surface that error — it
falls through the scan and returns the same `TopicMissingError` as for an
absent topic, so a `TopicMissingError` does not imply absence. -/
theorem readTopic_partition_error_topicMissing (c : Client)
    (replicaCount : String → List Int → Except GoError Int) (name : String)
    (topics : List String) (e : GoError)
    (htopics : c.client.Topics = .ok topics) (_hmem : name ∈ topics)
    (hpart : c.client.Partitions name = .error e) :
    Client.ReadTopic c replicaCount name =
      ({ Name := name }, some (.topicMissing (name ++ " could not be found"))) := by
  unfold Client.ReadTopic
  rw [htopics]
  exact readTopicLoop_no_match c replicaCount name _ topics
    (fun t ht hnt => by rw [← hnt, hpart]; rfl)

/-- A client that lists "events" but fails every partition query. -/
def partitionErrClient : Client :=
  { client := { dummySaramaClient with
                Topics := .ok ["events"]
                Partitions := fun _ => .error (.generic "no leader") }
    config := {} }

/-- Witness for C10: "events" is listed, its partition query fails with a
transport error, and `ReadTopic` reports the topic missing instead. -/
theorem readTopic_partition_error_witness :
    Client.ReadTopic partitionErrClient (fun _ _ => .ok 1) "events" =
      ({ Name := "events" }, some (.topicMissing ("events" ++ " could not be found"))) :=
  readTopic_partition_error_topicMissing partitionErrClient _ "events" ["events"]
    (.generic "no leader") rfl (by decide) rfl

/-- `DeleteTopic` outcome split under a resolved controller. -/
lemma deleteTopic_outcome (c : Client) (broker : Broker)
    (hctl : c.client.Controller = .ok broker) (name : String) :
    (Client.DeleteTopic c name = none ↔
      ∃ res, broker.DeleteTopics
          { Topics := [name], Timeout := c.config.Timeout * timeSecond } = .ok res ∧
        ∀ kv ∈ res.TopicErrorCodes, kv.2 = ErrNoError) ∧
    (∀ res kv,
       broker.DeleteTopics
         { Topics := [name], Timeout := c.config.Timeout * timeSecond } = .ok res →
       kv ∈ res.TopicErrorCodes → kv.2 ≠ ErrNoError →
       ∃ ge, Client.DeleteTopic c name = some ge) := by
  cases hcall : broker.DeleteTopics
      { Topics := [name], Timeout := c.config.Timeout * timeSecond } with
  | error e =>
    have heq : Client.DeleteTopic c name = some e := by
      simp only [Client.DeleteTopic, hctl, hcall]
    constructor
    · rw [heq]
      constructor
      · intro h; cases h
      · rintro ⟨res, hres, -⟩; cases hres
    · intro res kv hres; cases hres
  | ok res =>
    cases hfind : res.TopicErrorCodes.find? (fun kv => kv.2 != ErrNoError) with
    | some kv =>
      have heq : Client.DeleteTopic c name =
          some (.generic (kv.1 ++ " : " ++ kErrorText kv.2)) := by
        simp only [Client.DeleteTopic, hctl, hcall, hfind]
      have hp := List.find?_some hfind
      have hmem := List.mem_of_find?_eq_some hfind
      constructor
      · rw [heq]
        constructor
        · intro h; cases h
        · rintro ⟨res', hres', hall⟩
          injection hres' with h'
          subst h'
          have := hall kv hmem
          simp [this] at hp
      · intro res' kv' _ _ _
        exact ⟨_, heq⟩
    | none =>
      have heq : Client.DeleteTopic c name = none := by
        simp only [Client.DeleteTopic, hctl, hcall, hfind]
      constructor
      · rw [heq]
        constructor
        · intro _
          refine ⟨res, rfl, fun kv hkv => ?_⟩
          have := List.find?_eq_none.mp hfind kv hkv
          simpa using this
        · intro _; rfl
      · intro res' kv' hres' hkv' hbad
        injection hres' with h'
        subst h'
        have := List.find?_eq_none.mp hfind kv' hkv'
        simp at this
        exact absurd this hbad

/-- `CreateTopic` outcome split under a resolved controller. -/
lemma createTopic_outcome (c : Client) (broker : Broker)
    (hctl : c.client.Controller = .ok broker) (t : Topic) :
    (Client.CreateTopic c t = none ↔
      ∃ res, broker.CreateTopics
          { TopicDetails := [(t.Name, { NumPartitions := t.Partitions
                                        ReplicationFactor := t.ReplicationFactor
                                        ConfigEntries := t.Config })]
            Timeout := c.config.Timeout * timeSecond } = .ok res ∧
        ∀ kv ∈ res.TopicErrors, kv.2 = ErrNoError) ∧
    (∀ res kv,
       broker.CreateTopics
         { TopicDetails := [(t.Name, { NumPartitions := t.Partitions
                                       ReplicationFactor := t.ReplicationFactor
                                       ConfigEntries := t.Config })]
           Timeout := c.config.Timeout * timeSecond } = .ok res →
       kv ∈ res.TopicErrors → kv.2 ≠ ErrNoError →
       ∃ ge, Client.CreateTopic c t = some ge) := by
  cases hcall : broker.CreateTopics
      { TopicDetails := [(t.Name, { NumPartitions := t.Partitions
                                    ReplicationFactor := t.ReplicationFactor
                                    ConfigEntries := t.Config })]
        Timeout := c.config.Timeout * timeSecond } with
  | error e =>
    have heq : Client.CreateTopic c t = some e := by
      simp only [Client.CreateTopic, hctl, hcall]
    constructor
    · rw [heq]
      constructor
      · intro h; cases h
      · rintro ⟨res, hres, -⟩; cases hres
    · intro res kv hres; cases hres
  | ok res =>
    cases hfind : res.TopicErrors.find? (fun kv => kv.2 != ErrNoError) with
    | some kv =>
      have heq : Client.CreateTopic c t = some (.generic (kErrorText kv.2)) := by
        simp only [Client.CreateTopic, hctl, hcall, hfind]
      have hp := List.find?_some hfind
      have hmem := List.mem_of_find?_eq_some hfind
      constructor
      · rw [heq]
        constructor
        · intro h; cases h
        · rintro ⟨res', hres', hall⟩
          injection hres' with h'
          subst h'
          have := hall kv hmem
          simp [this] at hp
      · intro res' kv' _ _ _
        exact ⟨_, heq⟩
    | none =>
      have heq : Client.CreateTopic c t = none := by
        simp only [Client.CreateTopic, hctl, hcall, hfind]
      constructor
      · rw [heq]
        constructor
        · intro _
          refine ⟨res, rfl, fun kv hkv => ?_⟩
          have := List.find?_eq_none.mp hfind kv hkv
          simpa using this
        · intro _; rfl
      · intro res' kv' hres' hkv' hbad
        injection hres' with h'
        subst h'
        have := List.find?_eq_none.mp hfind kv' hkv'
        simp at this
        exact absurd this hbad

/-- `UpdateTopic` outcome split under a resolved controller. -/
lemma updateTopic_outcome (c : Client) (broker : Broker)
    (hctl : c.client.Controller = .ok broker) (t : Topic) :
    (Client.UpdateTopic c t = none ↔
      ∃ res, broker.AlterConfigs
          { Resources := configToResources t, ValidateOnly := false } = .ok res ∧
        ∀ r ∈ res.Resources, r.ErrorCode = ErrNoError) ∧
    (∀ res r,
       broker.AlterConfigs
         { Resources := configToResources t, ValidateOnly := false } = .ok res →
       r ∈ res.Resources → r.ErrorCode ≠ ErrNoError →
       ∃ ge, Client.UpdateTopic c t = some ge) := by
  cases hcall : broker.AlterConfigs
      { Resources := configToResources t, ValidateOnly := false } with
  | error e =>
    have heq : Client.UpdateTopic c t = some e := by
      simp only [Client.UpdateTopic, hctl, hcall]
    constructor
    · rw [heq]
      constructor
      · intro h; cases h
      · rintro ⟨res, hres, -⟩; cases hres
    · intro res r hres; cases hres
  | ok res =>
    cases hfind : res.Resources.find? (fun e => e.ErrorCode != ErrNoError) with
    | some r =>
      have heq : Client.UpdateTopic c t = some (.generic r.ErrorMsg) := by
        simp only [Client.UpdateTopic, hctl, hcall, hfind]
      have hp := List.find?_some hfind
      have hmem := List.mem_of_find?_eq_some hfind
      constructor
      · rw [heq]
        constructor
        · intro h; cases h
        · rintro ⟨res', hres', hall⟩
          injection hres' with h'
          subst h'
          have := hall r hmem
          simp [this] at hp
      · intro res' r' _ _ _
        exact ⟨_, heq⟩
    | none =>
      have heq : Client.UpdateTopic c t = none := by
        simp only [Client.UpdateTopic, hctl, hcall, hfind]
      constructor
      · rw [heq]
        constructor
        · intro _
          refine ⟨res, rfl, fun r hr => ?_⟩
          have := List.find?_eq_none.mp hfind r hr
          simpa using this
        · intro _; rfl
      · intro res' r' hres' hr' hbad
        injection hres' with h'
        subst h'
        have := List.find?_eq_none.mp hfind r' hr'
        simp at this
        exact absurd this hbad

/-- `AddPartitions` outcome split under a resolved controller. -/
lemma addPartitions_outcome (c : Client) (broker : Broker)
    (hctl : c.client.Controller = .ok broker) (t : Topic) :
    (Client.AddPartitions c t = none ↔
      ∃ res, broker.CreatePartitions
          { TopicPartitions := [(t.Name, { Count := t.Partitions })]
            Timeout := c.config.Timeout * timeSecond
            ValidateOnly := false } = .ok res ∧
        ∀ kv ∈ res.TopicPartitionErrors, kv.2 = ErrNoError) ∧
    (∀ res kv,
       broker.CreatePartitions
         { TopicPartitions := [(t.Name, { Count := t.Partitions })]
           Timeout := c.config.Timeout * timeSecond
           ValidateOnly := false } = .ok res →
       kv ∈ res.TopicPartitionErrors → kv.2 ≠ ErrNoError →
       ∃ ge, Client.AddPartitions c t = some ge) := by
  cases hcall : broker.CreatePartitions
      { TopicPartitions := [(t.Name, { Count := t.Partitions })]
        Timeout := c.config.Timeout * timeSecond
        ValidateOnly := false } with
  | error e =>
    have heq : Client.AddPartitions c t = some e := by
      simp only [Client.AddPartitions, hctl, hcall]
    constructor
    · rw [heq]
      constructor
      · intro h; cases h
      · rintro ⟨res, hres, -⟩; cases hres
    · intro res kv hres; cases hres
  | ok res =>
    cases hfind : res.TopicPartitionErrors.find? (fun kv => kv.2 != ErrNoError) with
    | some kv =>
      have heq : Client.AddPartitions c t = some (.generic (kErrorText kv.2)) := by
        simp only [Client.AddPartitions, hctl, hcall, hfind]
      have hp := List.find?_some hfind
      have hmem := List.mem_of_find?_eq_some hfind
      constructor
      · rw [heq]
        constructor
        · intro h; cases h
        · rintro ⟨res', hres', hall⟩
          injection hres' with h'
          subst h'
          have := hall kv hmem
          simp [this] at hp
      · intro res' kv' _ _ _
        exact ⟨_, heq⟩
    | none =>
      have heq : Client.AddPartitions c t = none := by
        simp only [Client.AddPartitions, hctl, hcall, hfind]
      constructor
      · rw [heq]
        constructor
        · intro _
          refine ⟨res, rfl, fun kv hkv => ?_⟩
          have := List.find?_eq_none.mp hfind kv hkv
          simpa using this
        · intro _; rfl
      · intro res' kv' hres' hkv' hbad
        injection hres' with h'
        subst h'
        have := List.find?_eq_none.mp hfind kv' hkv'
        simp at this
        exact absurd this hbad

/-- C1: with the controller resolved, each of `DeleteTopic`, `CreateTopic`,
`UpdateTopic` and `AddPartitions` returns success (a nil error) exactly
when its transport call returns a response and every per-item code in that
response is `ErrNoError`; whenever the call returns a response without a
transport error but with any non-`ErrNoError` per-item code, the operation
returns a failure. -/
theorem topicOps_surface_item_errors (c : Client) (broker : Broker)
    (hctl : c.client.Controller = .ok broker) (name : String) (t : Topic) :
    ((Client.DeleteTopic c name = none ↔
       ∃ res, broker.DeleteTopics
           { Topics := [name], Timeout := c.config.Timeout * timeSecond } = .ok res ∧
         ∀ kv ∈ res.TopicErrorCodes, kv.2 = ErrNoError) ∧
     (∀ res kv,
        broker.DeleteTopics
          { Topics := [name], Timeout := c.config.Timeout * timeSecond } = .ok res →
        kv ∈ res.TopicErrorCodes → kv.2 ≠ ErrNoError →
        ∃ ge, Client.DeleteTopic c name = some ge)) ∧
    ((Client.CreateTopic c t = none ↔
       ∃ res, broker.CreateTopics
           { TopicDetails := [(t.Name, { NumPartitions := t.Partitions
                                         ReplicationFactor := t.ReplicationFactor
                                         ConfigEntries := t.Config })]
             Timeout := c.config.Timeout * timeSecond } = .ok res ∧
         ∀ kv ∈ res.TopicErrors, kv.2 = ErrNoError) ∧
     (∀ res kv,
        broker.CreateTopics
          { TopicDetails := [(t.Name, { NumPartitions := t.Partitions
                                        ReplicationFactor := t.ReplicationFactor
                                        ConfigEntries := t.Config })]
            Timeout := c.config.Timeout * timeSecond } = .ok res →
        kv ∈ res.TopicErrors → kv.2 ≠ ErrNoError →
        ∃ ge, Client.CreateTopic c t = some ge)) ∧
    ((Client.UpdateTopic c t = none ↔
       ∃ res, broker.AlterConfigs
           { Resources := configToResources t, ValidateOnly := false } = .ok res ∧
         ∀ r ∈ res.Resources, r.ErrorCode = ErrNoError) ∧
     (∀ res r,
        broker.AlterConfigs
          { Resources := configToResources t, ValidateOnly := false } = .ok res →
        r ∈ res.Resources → r.ErrorCode ≠ ErrNoError →
        ∃ ge, Client.UpdateTopic c t = some ge)) ∧
    ((Client.AddPartitions c t = none ↔
       ∃ res, broker.CreatePartitions
           { TopicPartitions := [(t.Name, { Count := t.Partitions })]
             Timeout := c.config.Timeout * timeSecond
             ValidateOnly := false } = .ok res ∧
         ∀ kv ∈ res.TopicPartitionErrors, kv.2 = ErrNoError) ∧
     (∀ res kv,
        broker.CreatePartitions
          { TopicPartitions := [(t.Name, { Count := t.Partitions })]
            Timeout := c.config.Timeout * timeSecond
            ValidateOnly := false } = .ok res →
        kv ∈ res.TopicPartitionErrors → kv.2 ≠ ErrNoError →
        ∃ ge, Client.AddPartitions c t = some ge)) :=
  ⟨deleteTopic_outcome c broker hctl name,
   createTopic_outcome c broker hctl t,
   updateTopic_outcome c broker hctl t,
   addPartitions_outcome c broker hctl t⟩

/-- A controller broker whose delete response carries a non-zero per-topic
code (41 is the protocol's NOT_CONTROLLER) and whose create response is
all clear. -/
def okBroker : Broker :=
  { dummyBroker "controller:9092" with
    DeleteTopics := fun _ => .ok { TopicErrorCodes := [("logs", 41)] }
    CreateTopics := fun _ => .ok { TopicErrors := [("logs", 0)] } }

/-- A client whose controller lookup yields `okBroker`. -/
def ctlClient : Client :=
  { client := { dummySaramaClient with Controller := .ok okBroker }
    config := {} }

/-- Witness for C1: a delivered delete response with a non-zero per-topic
code makes `DeleteTopic` fail, and a delivered create response with all
codes clear makes `CreateTopic` succeed. -/
theorem topicOps_surface_item_errors_witness :
    (∃ ge, Client.DeleteTopic ctlClient "logs" = some ge) ∧
    Client.CreateTopic ctlClient { Name := "logs" } = none := by
  constructor
  · exact (topicOps_surface_item_errors ctlClient okBroker rfl "logs"
      { Name := "logs" }).1.2 { TopicErrorCodes := [("logs", 41)] } ("logs", 41)
      rfl (by decide) (by decide)
  · exact ((topicOps_surface_item_errors ctlClient okBroker rfl "logs"
      { Name := "logs" }).2.1.1).mpr ⟨{ TopicErrors := [("logs", 0)] }, rfl, by decide⟩

/-- If any request in the list fails (transport error, or a delivered
response with a non-`ErrNoError` code), the query loop returns an error,
whatever entries were accumulated. -/
lemma listAclsLoop_fail (broker : Broker) (reqs : List DescribeAclsRequest)
    (q : DescribeAclsRequest)
    (hfail : ∀ resp, broker.DescribeAcls q = .ok resp → resp.Err ≠ ErrNoError) :
    ∀ acc, q ∈ reqs → ∃ e, listAclsLoop broker reqs acc = .error e := by
  induction reqs with
  | nil => intro acc hq; cases hq
  | cons r rest ih =>
    intro acc hq
    cases hcall : broker.DescribeAcls r with
    | error e => exact ⟨e, by simp [listAclsLoop, hcall]⟩
    | ok resp =>
      by_cases hE : resp.Err = ErrNoError
      · have hqr : q ≠ r := by
          intro h
          subst h
          exact hfail resp hcall hE
        have hq' : q ∈ rest := by
          rcases List.mem_cons.mp hq with h | h
          · exact absurd h hqr
          · exact h
        have step := ih (acc ++ resp.ResourceAcls) hq'
        simpa [listAclsLoop, hcall, hE] using step
      · refine ⟨.generic (kErrorText resp.Err), ?_⟩
        simp [listAclsLoop, hcall, bne_iff_ne, hE]

/-- C6: `ListACLs` issues exactly the four describe-ACL queries, one per
resource type in the order Topic, Group, Cluster, TransactionalID, each
with "any" filters for pattern type, permission type and operation; when
all four are delivered with clear codes it returns their entries
concatenated in that issue order; and if any of the four fails (transport
error or non-`ErrNoError` code) the whole call returns an error, so no
partial results are returned. -/
theorem listAcls_queries_and_concatenation (c : Client)
    (openBroker : String → Except GoError Broker) (broker : Broker)
    (hb : c.availableBroker openBroker = .ok broker)
    (hrm : c.client.RefreshMetadata = none) :
    (listAclsRequests.map (fun r => (r.Version, r.AclFilter.ResourceType,
        r.AclFilter.ResourcePatternTypeFilter, r.AclFilter.PermissionType,
        r.AclFilter.Operation)) =
      [(1, AclResourceTopic, AclPatternAny, AclPermissionAny, AclOperationAny),
       (1, AclResourceGroup, AclPatternAny, AclPermissionAny, AclOperationAny),
       (1, AclResourceCluster, AclPatternAny, AclPermissionAny, AclOperationAny),
       (1, AclResourceTransactionalID, AclPatternAny, AclPermissionAny, AclOperationAny)]) ∧
    (∀ q1 q2 q3 q4, listAclsRequests = [q1, q2, q3, q4] →
      ∀ r1 r2 r3 r4 : DescribeAclsResponse,
        broker.DescribeAcls q1 = .ok r1 → r1.Err = ErrNoError →
        broker.DescribeAcls q2 = .ok r2 → r2.Err = ErrNoError →
        broker.DescribeAcls q3 = .ok r3 → r3.Err = ErrNoError →
        broker.DescribeAcls q4 = .ok r4 → r4.Err = ErrNoError →
        Client.ListACLs c openBroker =
          .ok (r1.ResourceAcls ++ r2.ResourceAcls ++ r3.ResourceAcls ++ r4.ResourceAcls) ∧
        listAclsIssued broker listAclsRequests = listAclsRequests) ∧
    (∀ q ∈ listAclsRequests,
      (∀ resp, broker.DescribeAcls q = .ok resp → resp.Err ≠ ErrNoError) →
      ∃ e, Client.ListACLs c openBroker = .error e) := by
  refine ⟨by decide, ?_, ?_⟩
  · intro q1 q2 q3 q4 heq r1 r2 r3 r4 h1 e1 h2 e2 h3 e3 h4 e4
    simp only [listAclsRequests] at heq
    injection heq with hq1 heq
    injection heq with hq2 heq
    injection heq with hq3 heq
    injection heq with hq4 heq
    subst hq1
    subst hq2
    subst hq3
    subst hq4
    constructor
    · simp only [Client.ListACLs, hb, hrm, listAclsRequests, listAclsLoop,
        h1, h2, h3, h4, e1, e2, e3, e4, bne_self_eq_false, if_false,
        Bool.false_eq_true, List.nil_append, List.append_assoc]
    · simp only [listAclsIssued, listAclsRequests, h1, h2, h3, h4,
        e1, e2, e3, e4, bne_self_eq_false, if_false, Bool.false_eq_true]
  · intro q hq hfail
    have step := listAclsLoop_fail broker listAclsRequests q hfail [] hq
    simpa only [Client.ListACLs, hb, hrm] using step

/-- A broker answering every describe-ACL query with a clear code and one
entry tagged by the queried resource type. -/
def aclBroker : Broker :=
  { dummyBroker "any:9092" with
    DescribeAcls := fun q =>
      .ok { Err := 0, ResourceAcls := [{ tag := q.AclFilter.ResourceType.toNat }] } }

/-- A client with one bootstrap address for the ACL witness. -/
def aclClient : Client :=
  { client := dummySaramaClient
    config := { BootstrapServers := ["k1:9092"] } }

/-- An opener that always yields `aclBroker`. -/
def aclOpen : String → Except GoError Broker := fun _ => .ok aclBroker

/-- Witness for C6: with every query answered cleanly, the four resource
types' entries come back concatenated in issue order and all four queries
are issued. -/
theorem listAcls_queries_witness :
    Client.ListACLs aclClient aclOpen =
      .ok [{ tag := 2 }, { tag := 3 }, { tag := 4 }, { tag := 5 }] ∧
    listAclsIssued aclBroker listAclsRequests = listAclsRequests := by
  exact (listAcls_queries_and_concatenation aclClient aclOpen aclBroker rfl rfl).2.1
    _ _ _ _ rfl
    { Err := 0, ResourceAcls := [{ tag := 2 }] }
    { Err := 0, ResourceAcls := [{ tag := 3 }] }
    { Err := 0, ResourceAcls := [{ tag := 4 }] }
    { Err := 0, ResourceAcls := [{ tag := 5 }] }
    rfl rfl rfl rfl rfl rfl rfl rfl
